import Mathlib

/-
Verification of the genro-auth token lifecycle manager and its in-memory
storage backend (src/genro_auth/tokens.py, src/genro_auth/storage.py).

The development has three layers:

1. A model of Python naive datetimes (PyDateTime) together with the parts of
   datetime.isoformat / datetime.fromisoformat that MemoryTokenStorage uses
   when serializing the expires_at field.  Only the formats that isoformat
   emits (a 19-character timestamp, plus a 6-digit fraction when the
   microsecond field is nonzero) are modelled in the parser.

2. A heap-level model of MemoryTokenStorage in which Python dicts and lists
   are mutable objects addressed by references, and dict.copy() is the
   shallow copy the source performs.  This layer settles the copy-isolation
   and timestamp round-trip claims.

3. A value-level model of TokenManager.  Storage keys map directly to token
   records here: the storage layer returns value copies (layer 2) and the
   timestamp serialization round-trips (layer 1), so at the granularity the
   manager observes, storage.set / storage.get / storage.delete behave as
   pure association-list operations.  Wall-clock reads (datetime.utcnow) are
   passed in explicitly as a Nat of microseconds, and the random plaintexts
   drawn by secrets.token_urlsafe are explicit arguments.  The SHA-256 hash
   of _hash_token is an arbitrary function parameter (hash_token field);
   hypotheses of the theorems record the collision-freeness the code relies
   on, and witnesses instantiate it concretely.
-/

/-- A Python naive datetime: the component view that datetime.isoformat
and datetime.fromisoformat operate on. -/
structure PyDateTime where
  year : Nat
  month : Nat
  day : Nat
  hour : Nat
  minute : Nat
  second : Nat
  microsecond : Nat
deriving DecidableEq, Repr

/-- The field bounds every Python datetime satisfies (datetime.MINYEAR = 1,
datetime.MAXYEAR = 9999; day is further restricted by the calendar, which
the round-trip does not depend on). -/
def PyDateTime.Valid (d : PyDateTime) : Prop :=
  1 ≤ d.year ∧ d.year ≤ 9999 ∧ 1 ≤ d.month ∧ d.month ≤ 12 ∧
    1 ≤ d.day ∧ d.day ≤ 31 ∧ d.hour ≤ 23 ∧ d.minute ≤ 59 ∧
    d.second ≤ 59 ∧ d.microsecond ≤ 999999

instance (d : PyDateTime) : Decidable d.Valid :=
  show Decidable (1 ≤ d.year ∧ d.year ≤ 9999 ∧ 1 ≤ d.month ∧ d.month ≤ 12 ∧
    1 ≤ d.day ∧ d.day ≤ 31 ∧ d.hour ≤ 23 ∧ d.minute ≤ 59 ∧
    d.second ≤ 59 ∧ d.microsecond ≤ 999999) from inferInstance

/-- Two-digit zero-padded decimal rendering (%02d). -/
def pad2 (n : Nat) : List Char :=
  [Nat.digitChar (n / 10), Nat.digitChar (n % 10)]

/-- Four-digit zero-padded decimal rendering (%04d). -/
def pad4 (n : Nat) : List Char :=
  [Nat.digitChar (n / 1000), Nat.digitChar (n / 100 % 10),
   Nat.digitChar (n / 10 % 10), Nat.digitChar (n % 10)]

/-- Six-digit zero-padded decimal rendering (%06d). -/
def pad6 (n : Nat) : List Char :=
  [Nat.digitChar (n / 100000), Nat.digitChar (n / 10000 % 10),
   Nat.digitChar (n / 1000 % 10), Nat.digitChar (n / 100 % 10),
   Nat.digitChar (n / 10 % 10), Nat.digitChar (n % 10)]

/-- datetime.isoformat on a naive datetime, as a character list:
YYYY-MM-DDTHH:MM:SS, followed by .ffffff exactly when microsecond is
nonzero. -/
def isoformatL (d : PyDateTime) : List Char :=
  pad4 d.year ++ ['-'] ++ pad2 d.month ++ ['-'] ++ pad2 d.day ++ ['T'] ++
    pad2 d.hour ++ [':'] ++ pad2 d.minute ++ [':'] ++ pad2 d.second ++
    (if d.microsecond = 0 then [] else ['.'] ++ pad6 d.microsecond)

/-- datetime.isoformat as a String. -/
def isoformat (d : PyDateTime) : String :=
  String.mk (isoformatL d)

/-- Value of a decimal digit character, none for a non-digit. -/
def digitVal (c : Char) : Option Nat :=
  if c.isDigit then some (c.toNat - 48) else none

/-- Parse two decimal digit characters. -/
def parse2 (a b : Char) : Option Nat :=
  match digitVal a, digitVal b with
  | some x, some y => some (x * 10 + y)
  | _, _ => none

/-- Parse four decimal digit characters. -/
def parse4 (a b c d : Char) : Option Nat :=
  match parse2 a b, parse2 c d with
  | some x, some y => some (x * 100 + y)
  | _, _ => none

/-- Parse six decimal digit characters. -/
def parse6 (a b c d e f : Char) : Option Nat :=
  match parse2 a b, parse2 c d, parse2 e f with
  | some x, some y, some z => some (x * 10000 + y * 100 + z)
  | _, _, _ => none

/-- Assemble a datetime from parsed components, rejecting out-of-range
fields as datetime.fromisoformat does when it constructs the datetime. -/
def mkDT (y mo dy h mi se us : Nat) : Option PyDateTime :=
  let d : PyDateTime := ⟨y, mo, dy, h, mi, se, us⟩
  if d.Valid then some d else none

/-- datetime.fromisoformat restricted to the shapes isoformat emits:
positional parse of YYYY-MM-DDTHH:MM:SS with an optional .ffffff tail. -/
def fromisoformatL : List Char → Option PyDateTime
  | y1 :: y2 :: y3 :: y4 :: c1 :: m1 :: m2 :: c2 :: d1 :: d2 :: c3 ::
      h1 :: h2 :: c4 :: i1 :: i2 :: c5 :: e1 :: e2 :: rest =>
    if c1 = '-' ∧ c2 = '-' ∧ c3 = 'T' ∧ c4 = ':' ∧ c5 = ':' then
      match parse4 y1 y2 y3 y4, parse2 m1 m2, parse2 d1 d2, parse2 h1 h2,
          parse2 i1 i2, parse2 e1 e2 with
      | some y, some mo, some dy, some h, some mi, some se =>
        match rest with
        | [] => mkDT y mo dy h mi se 0
        | '.' :: u1 :: u2 :: u3 :: u4 :: u5 :: u6 :: [] =>
          match parse6 u1 u2 u3 u4 u5 u6 with
          | some us => mkDT y mo dy h mi se us
          | none => none
        | _ => none
      | _, _, _, _, _, _ => none
    else none
  | _ => none

/-- datetime.fromisoformat on a String. -/
def fromisoformat (s : String) : Option PyDateTime :=
  fromisoformatL s.toList

theorem digitVal_digitChar (k : Nat) (h : k ≤ 9) :
    digitVal (Nat.digitChar k) = some k := by
  interval_cases k <;> decide

theorem parse2_pad2 (n : Nat) (h : n ≤ 99) :
    parse2 (Nat.digitChar (n / 10)) (Nat.digitChar (n % 10)) = some n := by
  have h1 : n / 10 ≤ 9 := by omega
  have h2 : n % 10 ≤ 9 := by omega
  simp [parse2, digitVal_digitChar _ h1, digitVal_digitChar _ h2]
  omega

theorem parse4_pad4 (n : Nat) (h : n ≤ 9999) :
    parse4 (Nat.digitChar (n / 1000)) (Nat.digitChar (n / 100 % 10))
      (Nat.digitChar (n / 10 % 10)) (Nat.digitChar (n % 10)) = some n := by
  have e1 : n / 1000 = n / 100 / 10 := by omega
  have e2 : n / 100 % 10 = n / 100 % 10 := rfl
  have e3 : n / 10 % 10 = n % 100 / 10 := by omega
  have e4 : n % 10 = n % 100 % 10 := by omega
  rw [e1, e3, e4]
  have p1 : parse2 (Nat.digitChar (n / 100 / 10)) (Nat.digitChar (n / 100 % 10)) =
      some (n / 100) := parse2_pad2 (n / 100) (by omega)
  have p2 : parse2 (Nat.digitChar (n % 100 / 10)) (Nat.digitChar (n % 100 % 10)) =
      some (n % 100) := parse2_pad2 (n % 100) (by omega)
  simp [parse4, p1, p2]
  omega

theorem parse6_pad6 (n : Nat) (h : n ≤ 999999) :
    parse6 (Nat.digitChar (n / 100000)) (Nat.digitChar (n / 10000 % 10))
      (Nat.digitChar (n / 1000 % 10)) (Nat.digitChar (n / 100 % 10))
      (Nat.digitChar (n / 10 % 10)) (Nat.digitChar (n % 10)) = some n := by
  have e1 : n / 100000 = n / 10000 / 10 := by omega
  have e3 : n / 1000 % 10 = n / 100 % 100 / 10 := by omega
  have e4 : n / 100 % 10 = n / 100 % 100 % 10 := by omega
  have e5 : n / 10 % 10 = n % 100 / 10 := by omega
  have e6 : n % 10 = n % 100 % 10 := by omega
  rw [e1, e3, e4, e5, e6]
  have p1 : parse2 (Nat.digitChar (n / 10000 / 10)) (Nat.digitChar (n / 10000 % 10)) =
      some (n / 10000) := parse2_pad2 (n / 10000) (by omega)
  have p2 : parse2 (Nat.digitChar (n / 100 % 100 / 10)) (Nat.digitChar (n / 100 % 100 % 10)) =
      some (n / 100 % 100) := parse2_pad2 (n / 100 % 100) (by omega)
  have p3 : parse2 (Nat.digitChar (n % 100 / 10)) (Nat.digitChar (n % 100 % 10)) =
      some (n % 100) := parse2_pad2 (n % 100) (by omega)
  simp [parse6, p1, p2, p3]
  omega

/-- The serialization MemoryTokenStorage performs on expires_at round-trips
exactly: parsing the isoformat rendering of any datetime recovers it. -/
theorem fromisoformatL_isoformatL (d : PyDateTime) (h : d.Valid) :
    fromisoformatL (isoformatL d) = some d := by
  obtain ⟨y, mo, dy, hh, mi, se, us⟩ := d
  obtain ⟨hy1, hy2, hm1, hm2, hd1, hd2, hhh, hmi, hse, hus⟩ := h
  simp only at hy1 hy2 hm1 hm2 hd1 hd2 hhh hmi hse hus
  have hv : PyDateTime.Valid ⟨y, mo, dy, hh, mi, se, us⟩ := by
    exact ⟨hy1, hy2, hm1, hm2, hd1, hd2, hhh, hmi, hse, hus⟩
  by_cases hμ : us = 0
  · subst hμ
    simp only [isoformatL, pad4, pad2, pad6, reduceIte, List.cons_append,
      List.nil_append, List.append_nil]
    rw [fromisoformatL]
    rw [if_pos (by exact ⟨rfl, rfl, rfl, rfl, rfl⟩)]
    rw [parse4_pad4 y (by omega), parse2_pad2 mo (by omega),
      parse2_pad2 dy (by omega), parse2_pad2 hh (by omega),
      parse2_pad2 mi (by omega), parse2_pad2 se (by omega)]
    simp only [mkDT]
    rw [if_pos hv]
  · simp only [isoformatL, pad4, pad2, pad6, if_neg hμ, List.cons_append,
      List.nil_append, List.append_nil]
    rw [fromisoformatL]
    rw [if_pos (by exact ⟨rfl, rfl, rfl, rfl, rfl⟩)]
    rw [parse4_pad4 y (by omega), parse2_pad2 mo (by omega),
      parse2_pad2 dy (by omega), parse2_pad2 hh (by omega),
      parse2_pad2 mi (by omega), parse2_pad2 se (by omega)]
    simp only [parse6_pad6 us (by omega), mkDT]
    rw [if_pos hv]

/-- String-level form of the round-trip. -/
theorem fromisoformat_isoformat (d : PyDateTime) (h : d.Valid) :
    fromisoformat (isoformat d) = some d := by
  show fromisoformatL (String.mk (isoformatL d)).toList = some d
  rw [show (String.mk (isoformatL d)).toList = isoformatL d from rfl]
  exact fromisoformatL_isoformatL d h

/-- Lookup in a string-keyed association list (the first binding wins,
matching Python dict observation order for our store model). -/
def alookup {α : Type} : List (String × α) → String → Option α
  | [], _ => none
  | (k, v) :: rest, key => if k = key then some v else alookup rest key

/-- Remove every binding of a key (dict.pop / del at value level). -/
def adelete {α : Type} : List (String × α) → String → List (String × α)
  | [], _ => []
  | (k, v) :: rest, key =>
    if k = key then adelete rest key else (k, v) :: adelete rest key

/-- Rebind a key in place, appending the binding when the key is absent
(Python dict item assignment). -/
def aupdate {α : Type} : List (String × α) → String → α → List (String × α)
  | [], key, v => [(key, v)]
  | (k, w) :: rest, key, v =>
    if k = key then (key, v) :: rest else (k, w) :: aupdate rest key v

theorem alookup_cons_self {α : Type} (st : List (String × α)) (k : String) (v : α) :
    alookup ((k, v) :: st) k = some v := by
  simp [alookup]

theorem alookup_cons_ne {α : Type} (st : List (String × α)) (k k' : String) (v : α)
    (h : k' ≠ k) : alookup ((k, v) :: st) k' = alookup st k' := by
  have hne : k ≠ k' := Ne.symm h
  simp [alookup, hne]

theorem alookup_adelete_self {α : Type} (st : List (String × α)) (k : String) :
    alookup (adelete st k) k = none := by
  induction st with
  | nil => simp [adelete, alookup]
  | cons p rest ih =>
    obtain ⟨k0, v0⟩ := p
    by_cases hk : k0 = k
    · simpa [adelete, hk] using ih
    · simp [adelete, hk, alookup, ih]

theorem alookup_adelete_ne {α : Type} (st : List (String × α)) (k k' : String)
    (h : k' ≠ k) : alookup (adelete st k) k' = alookup st k' := by
  induction st with
  | nil => simp [adelete]
  | cons p rest ih =>
    obtain ⟨k0, v0⟩ := p
    by_cases hk : k0 = k
    · subst hk
      have hne : k0 ≠ k' := Ne.symm h
      simp [adelete, alookup, hne, ih]
    · by_cases hk' : k0 = k'
      · subst hk'
        simp [adelete, hk, alookup]
      · simp [adelete, hk, alookup, hk', ih]

theorem alookup_aupdate_self {α : Type} (st : List (String × α)) (k : String) (v : α) :
    alookup (aupdate st k v) k = some v := by
  induction st with
  | nil => simp [aupdate, alookup]
  | cons p rest ih =>
    obtain ⟨k0, v0⟩ := p
    by_cases hk : k0 = k
    · simp [aupdate, hk, alookup]
    · simp [aupdate, hk, alookup, ih]

theorem aupdate_lookup_ne {α : Type} (st : List (String × α)) (k k' : String) (v : α)
    (h : k' ≠ k) : alookup (aupdate st k v) k' = alookup st k' := by
  induction st with
  | nil =>
    have hne : k ≠ k' := Ne.symm h
    simp [aupdate, alookup, hne]
  | cons p rest ih =>
    obtain ⟨k0, v0⟩ := p
    by_cases hk : k0 = k
    · subst hk
      have hne : k0 ≠ k' := Ne.symm h
      simp [aupdate, alookup, hne]
    · simp [aupdate, hk, alookup, ih]

theorem getD_append_length {α : Type} (l : List α) (x d : α) :
    (l ++ [x]).getD l.length d = x := by
  induction l with
  | nil => rfl
  | cons a rest ih => simp [List.getD]

/-
Heap-level model of MemoryTokenStorage.

Python dicts and lists are mutable objects reached through references;
dict.copy() (the copy both set and get perform) is a SHALLOW copy: the new
dict holds the same references for its values.  We model the dict heap and
the list heap explicitly.  Immutable Python values (str, datetime) are
stored inline; a list value is a reference into the list heap.
-/

/-- A value stored in a Python dict: a string, a datetime, or a reference
to a mutable list object. -/
inductive HVal where
  | s (v : String)
  | t (v : PyDateTime)
  | lref (r : Nat)
deriving DecidableEq, Repr

/-- A Python dict, as its entry list. -/
abbrev PyDict := List (String × HVal)

/-- The mutable state: all dict objects, all list objects, and the
storage's internal mapping from key to the dict object it holds. -/
structure MemState where
  dheap : List PyDict
  lheap : List (List String)
  store : List (String × Nat)
deriving Repr

/-- Total rendering of fromisoformat for use inside the heap model
(fromisoformat cannot fail on the strings set writes, which is where get
applies it). -/
def fromisoformatD (s : String) : PyDateTime :=
  (fromisoformat s).getD ⟨1, 1, 1, 0, 0, 0, 0⟩

/-- The body of MemoryTokenStorage.set after value.copy(): a new dict with
the same entries, with a datetime expires_at replaced by its isoformat
string.  Entries other than expires_at are carried over by reference
(shallow copy). -/
def serializeD (d : PyDict) : PyDict :=
  match alookup d "expires_at" with
  | some (.t dt) => aupdate d "expires_at" (.s (isoformat dt))
  | _ => d

/-- The body of MemoryTokenStorage.get after value.copy(): a new dict with
the same entries, with a string expires_at replaced by the parsed
datetime. -/
def deserializeD (d : PyDict) : PyDict :=
  match alookup d "expires_at" with
  | some (.s v) => aupdate d "expires_at" (.t (fromisoformatD v))
  | _ => d

namespace MemoryTokenStorage

/-- MemoryTokenStorage.set: read the caller's dict object, build the
serialized shallow copy as a fresh dict object, and point the store at the
fresh object. -/
def set (st : MemState) (key : String) (vref : Nat) : MemState :=
  let value := st.dheap.getD vref []
  let stored_value := serializeD value
  { dheap := st.dheap ++ [stored_value],
    lheap := st.lheap,
    store := (key, st.dheap.length) :: st.store }

/-- MemoryTokenStorage.get: none for a missing key; otherwise allocate a
deserialized shallow copy of the stored dict object and return a reference
to the fresh object. -/
def get (st : MemState) (key : String) : Option Nat × MemState :=
  match alookup st.store key with
  | none => (none, st)
  | some r =>
    let value := st.dheap.getD r []
    let result := deserializeD value
    (some st.dheap.length, { st with dheap := st.dheap ++ [result] })

end MemoryTokenStorage

/-- A caller-side mutation: list.append(x) on the list object at
reference r. -/
def list_append (st : MemState) (r : Nat) (x : String) : MemState :=
  { st with lheap := st.lheap.set r (st.lheap.getD r [] ++ [x]) }

/-- Observe the scopes list a reader of the dict object at dref sees. -/
def scopes_value (st : MemState) (dref : Nat) : Option (List String) :=
  match alookup (st.dheap.getD dref []) "scopes" with
  | some (.lref r) => some (st.lheap.getD r [])
  | _ => none

/-- Storage.get followed by reading the scopes entry of the returned
dict object. -/
def get_scopes (st : MemState) (key : String) : Option (List String) :=
  match MemoryTokenStorage.get st key with
  | (some g, st2) => scopes_value st2 g
  | (none, _) => none

/-- Storage.get followed by reading the expires_at entry of the returned
dict object. -/
def get_expires (st : MemState) (key : String) : Option HVal :=
  match MemoryTokenStorage.get st key with
  | (some g, st2) => alookup (st2.dheap.getD g []) "expires_at"
  | (none, _) => none

/-
Value-level model of TokenManager (src/genro_auth/tokens.py).

Records always written by this module carry user_id, scopes, type and
expires_at, so those are plain fields; access_token_hash is written only on
refresh records and read with dict.get, so it is optional.  expires_at is a
Nat of microseconds since the epoch: datetime comparison and
timedelta(seconds=n) addition coincide with Nat comparison and addition of
n * 1000000 at this resolution.  Each operation takes the value
datetime.utcnow() returns during the call as the explicit argument now; the
plaintexts secrets.token_urlsafe draws are explicit arguments of
generate_token and refresh_token.
-/

/-- The metadata dict stored for one token. -/
structure TokenRecord where
  user_id : String
  scopes : List String
  type : String
  expires_at : Nat
  access_token_hash : Option String := none
deriving DecidableEq, Repr

/-- The storage contents at the granularity the manager observes. -/
abbrev Store := List (String × TokenRecord)

/-- The result dict of generate_token and refresh_token. -/
structure TokenPair where
  access_token : String
  refresh_token : String
  expires_in : Nat
  token_type : String
deriving DecidableEq, Repr

/-- TokenManager configuration: the two lifetimes (seconds) and the hash
of _hash_token, kept as an arbitrary function so every theorem holds for
any hash; collision-freeness the code relies on appears as explicit
hypotheses. -/
structure TokenManager where
  token_ttl : Nat
  refresh_ttl : Nat
  hash_token : String → String

/-- Python `scopes or []`: None and the empty list both become []. -/
def orEmptyList : Option (List String) → List String
  | none => []
  | some l => if l.isEmpty then [] else l

theorem orEmptyList_some (l : List String) : orEmptyList (some l) = l := by
  cases l <;> simp [orEmptyList]

/-- storage.set at value level: bind the key (dict item assignment). -/
def storage_set (st : Store) (key : String) (value : TokenRecord) : Store :=
  (key, value) :: st

/-- storage.get at value level. -/
def storage_get (st : Store) (key : String) : Option TokenRecord :=
  alookup st key

/-- storage.delete at value level (pop with default: no error when the
key is absent). -/
def storage_delete (st : Store) (key : String) : Store :=
  adelete st key

/-- TokenManager.generate_token: hash the two fresh plaintexts, store the
access record and then the refresh record (which links back to the access
hash), and return the pair dict. -/
def TokenManager.generate_token (m : TokenManager) (user_id : String)
    (scopes : Option (List String)) (access_token refresh_token : String)
    (now : Nat) (st : Store) : TokenPair × Store :=
  let access_hash := m.hash_token access_token
  let refresh_hash := m.hash_token refresh_token
  let access_expires := now + m.token_ttl * 1000000
  let refresh_expires := now + m.refresh_ttl * 1000000
  let st1 := storage_set st access_hash
    { user_id := user_id, scopes := orEmptyList scopes, type := "access",
      expires_at := access_expires }
  let st2 := storage_set st1 refresh_hash
    { user_id := user_id, scopes := orEmptyList scopes, type := "refresh",
      expires_at := refresh_expires, access_token_hash := some access_hash }
  ({ access_token := access_token, refresh_token := refresh_token,
     expires_in := m.token_ttl, token_type := "Bearer" }, st2)

/-- TokenManager.validate_token: absent, wrong kind, or expired (strictly
before now, with deletion on that branch) give none; otherwise the stored
record is returned. -/
def TokenManager.validate_token (m : TokenManager) (token : String)
    (now : Nat) (st : Store) : Option TokenRecord × Store :=
  let token_hash := m.hash_token token
  match storage_get st token_hash with
  | none => (none, st)
  | some token_data =>
    if token_data.type ≠ "access" then (none, st)
    else if token_data.expires_at < now then (none, storage_delete st token_hash)
    else (some token_data, st)

/-- TokenManager.refresh_token: absent, wrong kind, or expired (deleting on
expiry) give none; otherwise delete the linked access record (when the
stored hash is present and non-empty), delete the refresh record, and
generate a new pair from the stored user_id and scopes. -/
def TokenManager.refresh_token (m : TokenManager) (refresh_token : String)
    (new_access new_refresh : String) (now : Nat) (st : Store) :
    Option TokenPair × Store :=
  let refresh_hash := m.hash_token refresh_token
  match storage_get st refresh_hash with
  | none => (none, st)
  | some refresh_data =>
    if refresh_data.type ≠ "refresh" then (none, st)
    else if refresh_data.expires_at < now then (none, storage_delete st refresh_hash)
    else
      let st1 := match refresh_data.access_token_hash with
        | some h => if h ≠ "" then storage_delete st h else st
        | none => st
      let st2 := storage_delete st1 refresh_hash
      let out := m.generate_token refresh_data.user_id (some refresh_data.scopes)
        new_access new_refresh now st2
      (some out.1, out.2)

/-- TokenManager.revoke_token: false for an absent record; otherwise delete
the linked access record first when revoking a refresh token, delete the
record itself, and return true. -/
def TokenManager.revoke_token (m : TokenManager) (token : String) (st : Store) :
    Bool × Store :=
  let token_hash := m.hash_token token
  match storage_get st token_hash with
  | none => (false, st)
  | some token_data =>
    let st1 := if token_data.type = "refresh" then
        match token_data.access_token_hash with
        | some h => if h ≠ "" then storage_delete st h else st
        | none => st
      else st
    (true, storage_delete st1 token_hash)

/-
Claim-level results.

Shared concrete fixtures used by witnesses follow the theorems they serve;
the manager fixture mgr instantiates the hash parameter with the identity
function, which satisfies all collision-freeness hypotheses on the chosen
plaintexts.
-/

/-- C8: storing a record whose expires_at is a datetime and reading it
back yields the identical datetime: the datetime-to-ISO-string-and-back
conversion inside MemoryTokenStorage.set / get is an exact round-trip. -/
theorem c8_expires_at_roundtrip (st : MemState) (key : String) (vref : Nat)
    (dt : PyDateTime) (hdt : dt.Valid)
    (hlook : alookup (st.dheap.getD vref []) "expires_at" = some (HVal.t dt)) :
    get_expires (MemoryTokenStorage.set st key vref) key = some (HVal.t dt) := by
  have hser : serializeD (st.dheap.getD vref []) =
      aupdate (st.dheap.getD vref []) "expires_at" (HVal.s (isoformat dt)) := by
    unfold serializeD
    rw [hlook]
  have hD : fromisoformatD (isoformat dt) = dt := by
    unfold fromisoformatD
    rw [fromisoformat_isoformat dt hdt]
    rfl
  simp only [get_expires, MemoryTokenStorage.set, MemoryTokenStorage.get, hser,
    alookup_cons_self, getD_append_length, deserializeD, alookup_aupdate_self, hD]

def c8dt : PyDateTime := ⟨2024, 6, 1, 8, 30, 15, 123456⟩

def c8st : MemState :=
  { dheap := [[("user_id", HVal.s "u1"), ("expires_at", HVal.t c8dt)]],
    lheap := [], store := [] }

/-- Witness for C8 at a concrete datetime with a nonzero microsecond
field. -/
theorem c8_expires_at_roundtrip_witness :
    get_expires (MemoryTokenStorage.set c8st "k" 0) "k" = some (HVal.t c8dt) :=
  c8_expires_at_roundtrip c8st "k" 0 c8dt (by decide) (by decide)

def c2dt : PyDateTime := ⟨2024, 6, 1, 8, 30, 15, 0⟩

/-- The caller's record object: its scopes entry is a reference to the
list object at index 0 of the list heap. -/
def c2dict : PyDict :=
  [("user_id", HVal.s "u1"), ("scopes", HVal.lref 0),
   ("type", HVal.s "access"), ("expires_at", HVal.t c2dt)]

def c2st0 : MemState := { dheap := [c2dict], lheap := [["read"]], store := [] }

/-- State after Storage.set("k", the record above). -/
def c2st1 : MemState := MemoryTokenStorage.set c2st0 "k" 0

/-- State after the caller then appends to the scopes list of the record
object it passed in and retained. -/
def c2st2 : MemState := list_append c2st1 0 "admin"

/-- C2 fails on the code: dict.copy() in MemoryTokenStorage.set is a
shallow copy, so the stored record shares the caller's scopes list object;
after the caller appends to that list, get("k") observes the mutation.
Before the mutation get returns scopes equal to the singleton read list;
after it, get returns the appended list, which the claim says could not
happen. -/
theorem c2_shallow_copy_leak :
    get_scopes c2st1 "k" = some ["read"] ∧
    get_scopes c2st2 "k" = some ["read", "admin"] := by
  constructor
  · rfl
  · rfl

/-- Concrete manager for witnesses: default lifetimes, identity hash. -/
def mgr : TokenManager :=
  { token_ttl := 3600, refresh_ttl := 86400, hash_token := fun s => s }

def c1rec : TokenRecord :=
  { user_id := "u1", scopes := [], type := "access", expires_at := 5 }

def c1st : Store := [("k", c1rec)]

/-- C1 counterexample: a stored Access record whose expires_at equals the
current time is returned as valid by validate_token (the code tests
expires_at < now, strict), so "invalid whenever expires_at is at or before
now" fails at the equality boundary. -/
theorem c1_boundary_counterexample :
    storage_get c1st (mgr.hash_token "k") = some c1rec ∧
    c1rec.type = "access" ∧ c1rec.expires_at ≤ 5 ∧
    (mgr.validate_token "k" 5 c1st).1 = some c1rec := by
  decide

/-- C1 (amended): for every stored Access record, validate_token on its
plaintext returns invalid whenever the record's expires_at is strictly
before the current time, and on that expiry branch the record is deleted
from storage, so a subsequent storage get on that hash returns absent. -/
theorem c1_expired_invalid_and_purged (m : TokenManager) (token : String)
    (now : Nat) (st : Store) (rec : TokenRecord)
    (hget : storage_get st (m.hash_token token) = some rec)
    (hkind : rec.type = "access")
    (hexp : rec.expires_at < now) :
    m.validate_token token now st = (none, storage_delete st (m.hash_token token)) ∧
    storage_get (storage_delete st (m.hash_token token)) (m.hash_token token) = none := by
  constructor
  · simp only [TokenManager.validate_token, hget, hkind, hexp]
    simp
  · exact alookup_adelete_self st (m.hash_token token)

/-- Witness for the amended C1: the boundary record is purged one
microsecond later. -/
theorem c1_expired_invalid_and_purged_witness :
    mgr.validate_token "k" 6 c1st = (none, storage_delete c1st (mgr.hash_token "k")) ∧
    storage_get (storage_delete c1st (mgr.hash_token "k")) (mgr.hash_token "k") = none :=
  c1_expired_invalid_and_purged mgr "k" 6 c1st c1rec (by decide) (by decide) (by decide)

/-- C6: revoke_token on a plaintext whose hash has no record returns false
and leaves the storage state unchanged. -/
theorem c6_revoke_absent_noop (m : TokenManager) (token : String) (st : Store)
    (h : storage_get st (m.hash_token token) = none) :
    m.revoke_token token st = (false, st) := by
  simp only [TokenManager.revoke_token, h]

/-- Witness for C6 on an empty store and on a store holding an unrelated
key. -/
theorem c6_revoke_absent_noop_witness :
    mgr.revoke_token "ghost" c1st = (false, c1st) :=
  c6_revoke_absent_noop mgr "ghost" c1st (by decide)

/-- C7: deletion happens only on the expiry branch: validate_token on an
unexpired Refresh record and refresh_token on an unexpired Access record
both return invalid with the storage state unchanged. -/
theorem c7_wrong_kind_leaves_state (m : TokenManager) (tok tok2 na nr : String)
    (now now2 : Nat) (st st2 : Store) (rec rec2 : TokenRecord)
    (hget : storage_get st (m.hash_token tok) = some rec)
    (hkind : rec.type = "refresh")
    (hexp : ¬ rec.expires_at < now)
    (hget2 : storage_get st2 (m.hash_token tok2) = some rec2)
    (hkind2 : rec2.type = "access")
    (hexp2 : ¬ rec2.expires_at < now2) :
    m.validate_token tok now st = (none, st) ∧
    m.refresh_token tok2 na nr now2 st2 = (none, st2) := by
  constructor
  · simp only [TokenManager.validate_token, hget, hkind]
    simp
  · simp only [TokenManager.refresh_token, hget2, hkind2]
    simp

def c7rec : TokenRecord :=
  { user_id := "u1", scopes := ["read"], type := "refresh", expires_at := 100,
    access_token_hash := some "akey" }

def c7rec2 : TokenRecord :=
  { user_id := "u1", scopes := ["read"], type := "access", expires_at := 100 }

/-- Witness for C7: an unexpired refresh record under validate_token and an
unexpired access record under refresh_token. -/
theorem c7_wrong_kind_leaves_state_witness :
    mgr.validate_token "r" 50 [("r", c7rec)] = (none, [("r", c7rec)]) ∧
    mgr.refresh_token "a" "na" "nr" 50 [("a", c7rec2)] = (none, [("a", c7rec2)]) :=
  c7_wrong_kind_leaves_state mgr "r" "a" "na" "nr" 50 50 [("r", c7rec)] [("a", c7rec2)]
    c7rec c7rec2 (by decide) (by decide) (by decide) (by decide) (by decide) (by decide)

/-- C10: when refresh_token meets an expired Refresh record it deletes only
that record: the result is invalid with exactly the refresh hash removed,
and every other key (in particular the linked access hash) reads as
before. -/
theorem c10_expired_refresh_deletes_only_itself (m : TokenManager)
    (tok na nr : String) (now : Nat) (st : Store) (rec : TokenRecord) (k : String)
    (hget : storage_get st (m.hash_token tok) = some rec)
    (hkind : rec.type = "refresh")
    (hexp : rec.expires_at < now)
    (hk : k ≠ m.hash_token tok) :
    m.refresh_token tok na nr now st = (none, storage_delete st (m.hash_token tok)) ∧
    storage_get (storage_delete st (m.hash_token tok)) k = storage_get st k := by
  constructor
  · simp only [TokenManager.refresh_token, hget, hkind, hexp]
    simp
  · exact alookup_adelete_ne st (m.hash_token tok) k hk

def c10rec : TokenRecord :=
  { user_id := "u1", scopes := ["read"], type := "refresh", expires_at := 100,
    access_token_hash := some "akey" }

def c10arec : TokenRecord :=
  { user_id := "u1", scopes := ["read"], type := "access", expires_at := 100 }

def c10st : Store := [("r", c10rec), ("akey", c10arec)]

/-- Witness for C10: the expired refresh record is removed while the linked
access record is still readable. -/
theorem c10_expired_refresh_deletes_only_itself_witness :
    mgr.refresh_token "r" "na" "nr" 200 c10st = (none, storage_delete c10st (mgr.hash_token "r")) ∧
    storage_get (storage_delete c10st (mgr.hash_token "r")) "akey" = storage_get c10st "akey" :=
  c10_expired_refresh_deletes_only_itself mgr "r" "na" "nr" 200 c10st c10rec "akey"
    (by decide) (by decide) (by decide) (by decide)

/-- C3: for every non-empty user_id and scopes list, a freshly generated
access token validates successfully at the same instant, and the returned
user context carries the same user_id and scopes (fresh plaintexts whose
hashes differ, as two draws of token_urlsafe give). -/
theorem c3_generate_validate_roundtrip (m : TokenManager) (user_id : String)
    (scopes : List String) (a r : String) (now : Nat) (st : Store)
    (huid : user_id ≠ "")
    (hcol : m.hash_token a ≠ m.hash_token r) :
    m.validate_token ((m.generate_token user_id (some scopes) a r now st).1).access_token
        now (m.generate_token user_id (some scopes) a r now st).2 =
      (some { user_id := user_id, scopes := scopes, type := "access",
              expires_at := now + m.token_ttl * 1000000 },
       (m.generate_token user_id (some scopes) a r now st).2) := by
  have hne : m.hash_token r ≠ m.hash_token a := Ne.symm hcol
  simp only [TokenManager.generate_token, TokenManager.validate_token, storage_set,
    storage_get, orEmptyList_some]
  rw [alookup_cons_ne _ _ _ _ hcol, alookup_cons_self]
  have hlt : ¬ now + m.token_ttl * 1000000 < now := by omega
  simp [hlt]

/-- Witness for C3. -/
theorem c3_generate_validate_roundtrip_witness :
    mgr.validate_token ((mgr.generate_token "u1" (some ["read"]) "a" "r" 1000 []).1).access_token
        1000 (mgr.generate_token "u1" (some ["read"]) "a" "r" 1000 []).2 =
      (some { user_id := "u1", scopes := ["read"], type := "access",
              expires_at := 1000 + mgr.token_ttl * 1000000 },
       (mgr.generate_token "u1" (some ["read"]) "a" "r" 1000 []).2) :=
  c3_generate_validate_roundtrip mgr "u1" ["read"] "a" "r" 1000 []
    (by decide) (by decide)

/-- C9: generate_token performs no validation of user_id: for any string,
empty included, the two records are written with that user_id verbatim and
the fresh access token validates to a context carrying it. -/
theorem c9_no_user_id_validation (m : TokenManager) (user_id : String)
    (scopes : Option (List String)) (a r : String) (now : Nat) (st : Store)
    (hcol : m.hash_token a ≠ m.hash_token r) :
    storage_get (m.generate_token user_id scopes a r now st).2 (m.hash_token a) =
      some { user_id := user_id, scopes := orEmptyList scopes, type := "access",
             expires_at := now + m.token_ttl * 1000000 } ∧
    storage_get (m.generate_token user_id scopes a r now st).2 (m.hash_token r) =
      some { user_id := user_id, scopes := orEmptyList scopes, type := "refresh",
             expires_at := now + m.refresh_ttl * 1000000,
             access_token_hash := some (m.hash_token a) } ∧
    m.validate_token a now (m.generate_token user_id scopes a r now st).2 =
      (some { user_id := user_id, scopes := orEmptyList scopes, type := "access",
              expires_at := now + m.token_ttl * 1000000 },
       (m.generate_token user_id scopes a r now st).2) := by
  have hne : m.hash_token r ≠ m.hash_token a := Ne.symm hcol
  refine ⟨?_, ?_, ?_⟩
  · simp only [TokenManager.generate_token, storage_set, storage_get]
    rw [alookup_cons_ne _ _ _ _ hcol, alookup_cons_self]
  · simp only [TokenManager.generate_token, storage_set, storage_get]
    rw [alookup_cons_self]
  · simp only [TokenManager.generate_token, TokenManager.validate_token, storage_set,
      storage_get]
    rw [alookup_cons_ne _ _ _ _ hcol, alookup_cons_self]
    have hlt : ¬ now + m.token_ttl * 1000000 < now := by omega
    simp [hlt]

/-- Witness for C9 at the empty user_id. -/
theorem c9_no_user_id_validation_witness :
    storage_get (mgr.generate_token "" none "a" "r" 1000 []).2 (mgr.hash_token "a") =
      some { user_id := "", scopes := orEmptyList none, type := "access",
             expires_at := 1000 + mgr.token_ttl * 1000000 } ∧
    storage_get (mgr.generate_token "" none "a" "r" 1000 []).2 (mgr.hash_token "r") =
      some { user_id := "", scopes := orEmptyList none, type := "refresh",
             expires_at := 1000 + mgr.refresh_ttl * 1000000,
             access_token_hash := some (mgr.hash_token "a") } ∧
    mgr.validate_token "a" 1000 (mgr.generate_token "" none "a" "r" 1000 []).2 =
      (some { user_id := "", scopes := orEmptyList none, type := "access",
              expires_at := 1000 + mgr.token_ttl * 1000000 },
       (mgr.generate_token "" none "a" "r" 1000 []).2) :=
  c9_no_user_id_validation mgr "" none "a" "r" 1000 [] (by decide)

/-- C4: once refresh_token succeeds on a refresh plaintext, a second call
with the same plaintext is invalid, and the access token issued alongside
it (the plaintext hashing to the stored linked hash) no longer validates.
The hypotheses on the fresh hashes record that the newly drawn plaintexts
do not collide with the consumed pair, as two draws of token_urlsafe
give. -/
theorem c4_one_time_refresh (m : TokenManager) (r a0 na nr na2 nr2 : String)
    (now now2 now3 : Nat) (st : Store) (rd : TokenRecord) (ah : String)
    (hget : storage_get st (m.hash_token r) = some rd)
    (hkind : rd.type = "refresh")
    (hexp : ¬ rd.expires_at < now)
    (hlink : rd.access_token_hash = some ah)
    (hah : ah ≠ "")
    (ha0 : m.hash_token a0 = ah)
    (hna : m.hash_token na ≠ m.hash_token r)
    (hnr : m.hash_token nr ≠ m.hash_token r)
    (hna2 : m.hash_token na ≠ ah)
    (hnr2 : m.hash_token nr ≠ ah) :
    (m.refresh_token r na nr now st).1 =
      some { access_token := na, refresh_token := nr, expires_in := m.token_ttl,
             token_type := "Bearer" } ∧
    (m.refresh_token r na2 nr2 now2 (m.refresh_token r na nr now st).2).1 = none ∧
    m.validate_token a0 now3 (m.refresh_token r na nr now st).2 =
      (none, (m.refresh_token r na nr now st).2) := by
  have hrun : m.refresh_token r na nr now st =
      (some { access_token := na, refresh_token := nr, expires_in := m.token_ttl,
              token_type := "Bearer" },
       (m.hash_token nr,
         { user_id := rd.user_id, scopes := rd.scopes, type := "refresh",
           expires_at := now + m.refresh_ttl * 1000000,
           access_token_hash := some (m.hash_token na) }) ::
       (m.hash_token na,
         { user_id := rd.user_id, scopes := rd.scopes, type := "access",
           expires_at := now + m.token_ttl * 1000000, access_token_hash := none }) ::
       adelete (adelete st ah) (m.hash_token r)) := by
    simp only [TokenManager.refresh_token, hget, hkind, hexp, hlink,
      TokenManager.generate_token, storage_set, storage_delete, orEmptyList_some]
    simp [hah]
  refine ⟨?_, ?_, ?_⟩
  · rw [hrun]
  · rw [hrun]
    simp only [TokenManager.refresh_token, storage_get]
    rw [alookup_cons_ne _ _ _ _ (Ne.symm hnr), alookup_cons_ne _ _ _ _ (Ne.symm hna),
      alookup_adelete_self]
  · rw [hrun]
    simp only [TokenManager.validate_token, storage_get, ha0]
    rw [alookup_cons_ne _ _ _ _ (Ne.symm hnr2), alookup_cons_ne _ _ _ _ (Ne.symm hna2)]
    by_cases hc : ah = m.hash_token r
    · rw [hc, alookup_adelete_self]
    · rw [alookup_adelete_ne _ _ _ hc, alookup_adelete_self]

def c4rd : TokenRecord :=
  { user_id := "u1", scopes := ["read"], type := "refresh", expires_at := 100,
    access_token_hash := some "akey" }

def c4arec : TokenRecord :=
  { user_id := "u1", scopes := ["read"], type := "access", expires_at := 100 }

def c4st : Store := [("r", c4rd), ("akey", c4arec)]

/-- Witness for C4 on a concrete refreshed pair. -/
theorem c4_one_time_refresh_witness :
    (mgr.refresh_token "r" "na" "nr" 50 c4st).1 =
      some { access_token := "na", refresh_token := "nr", expires_in := mgr.token_ttl,
             token_type := "Bearer" } ∧
    (mgr.refresh_token "r" "x" "y" 60 (mgr.refresh_token "r" "na" "nr" 50 c4st).2).1 = none ∧
    mgr.validate_token "akey" 70 (mgr.refresh_token "r" "na" "nr" 50 c4st).2 =
      (none, (mgr.refresh_token "r" "na" "nr" 50 c4st).2) :=
  c4_one_time_refresh mgr "r" "akey" "na" "nr" "x" "y" 50 60 70 c4st c4rd "akey"
    (by decide) (by decide) (by decide) (by decide) (by decide) (by decide)
    (by decide) (by decide) (by decide) (by decide)

/-- C5: from a freshly generated pair, revoking the access token leaves
the sibling refresh token usable (refresh_token still succeeds on it),
while revoking the refresh token deletes both the refresh record and its
linked access record, after which neither token works. -/
theorem c5_revocation_asymmetry (m : TokenManager) (user_id : String)
    (scopes : List String) (a r na nr : String) (now : Nat) (st : Store)
    (hcol : m.hash_token a ≠ m.hash_token r)
    (hha : m.hash_token a ≠ "") :
    (m.revoke_token a (m.generate_token user_id (some scopes) a r now st).2).1 = true ∧
    (m.refresh_token r na nr now
        (m.revoke_token a (m.generate_token user_id (some scopes) a r now st).2).2).1 =
      some { access_token := na, refresh_token := nr, expires_in := m.token_ttl,
             token_type := "Bearer" } ∧
    (m.revoke_token r (m.generate_token user_id (some scopes) a r now st).2).1 = true ∧
    storage_get (m.revoke_token r (m.generate_token user_id (some scopes) a r now st).2).2
        (m.hash_token a) = none ∧
    storage_get (m.revoke_token r (m.generate_token user_id (some scopes) a r now st).2).2
        (m.hash_token r) = none ∧
    m.validate_token a now
        (m.revoke_token r (m.generate_token user_id (some scopes) a r now st).2).2 =
      (none, (m.revoke_token r (m.generate_token user_id (some scopes) a r now st).2).2) ∧
    (m.refresh_token r na nr now
        (m.revoke_token r (m.generate_token user_id (some scopes) a r now st).2).2).1 =
      none := by
  have hgen : (m.generate_token user_id (some scopes) a r now st).2 =
      (m.hash_token r,
        { user_id := user_id, scopes := scopes, type := "refresh",
          expires_at := now + m.refresh_ttl * 1000000,
          access_token_hash := some (m.hash_token a) }) ::
      (m.hash_token a,
        { user_id := user_id, scopes := scopes, type := "access",
          expires_at := now + m.token_ttl * 1000000, access_token_hash := none }) ::
      st := by
    simp only [TokenManager.generate_token, storage_set, orEmptyList_some]
  rw [hgen]
  have hrevA : m.revoke_token a
      ((m.hash_token r,
        { user_id := user_id, scopes := scopes, type := "refresh",
          expires_at := now + m.refresh_ttl * 1000000,
          access_token_hash := some (m.hash_token a) }) ::
      (m.hash_token a,
        { user_id := user_id, scopes := scopes, type := "access",
          expires_at := now + m.token_ttl * 1000000, access_token_hash := none }) ::
      st) =
      (true, adelete
        ((m.hash_token r,
          { user_id := user_id, scopes := scopes, type := "refresh",
            expires_at := now + m.refresh_ttl * 1000000,
            access_token_hash := some (m.hash_token a) }) ::
        (m.hash_token a,
          { user_id := user_id, scopes := scopes, type := "access",
            expires_at := now + m.token_ttl * 1000000, access_token_hash := none }) ::
        st) (m.hash_token a)) := by
    simp only [TokenManager.revoke_token, storage_get, storage_delete]
    rw [alookup_cons_ne _ _ _ _ hcol, alookup_cons_self]
    simp
  have hrevR : m.revoke_token r
      ((m.hash_token r,
        { user_id := user_id, scopes := scopes, type := "refresh",
          expires_at := now + m.refresh_ttl * 1000000,
          access_token_hash := some (m.hash_token a) }) ::
      (m.hash_token a,
        { user_id := user_id, scopes := scopes, type := "access",
          expires_at := now + m.token_ttl * 1000000, access_token_hash := none }) ::
      st) =
      (true, adelete (adelete
        ((m.hash_token r,
          { user_id := user_id, scopes := scopes, type := "refresh",
            expires_at := now + m.refresh_ttl * 1000000,
            access_token_hash := some (m.hash_token a) }) ::
        (m.hash_token a,
          { user_id := user_id, scopes := scopes, type := "access",
            expires_at := now + m.token_ttl * 1000000, access_token_hash := none }) ::
        st) (m.hash_token a)) (m.hash_token r)) := by
    simp only [TokenManager.revoke_token, storage_get, storage_delete]
    rw [alookup_cons_self]
    simp [hha]
  rw [hrevA, hrevR]
  refine ⟨rfl, ?_, rfl, ?_, ?_, ?_, ?_⟩
  · simp only [TokenManager.refresh_token, storage_get]
    rw [alookup_adelete_ne _ _ _ (Ne.symm hcol), alookup_cons_self]
    have hlt : ¬ now + m.refresh_ttl * 1000000 < now := by omega
    simp [hlt, hha, TokenManager.generate_token, storage_set, storage_delete]
  · rw [storage_get, alookup_adelete_ne _ _ _ hcol, alookup_adelete_self]
  · rw [storage_get, alookup_adelete_self]
  · simp only [TokenManager.validate_token, storage_get]
    rw [alookup_adelete_ne _ _ _ hcol, alookup_adelete_self]
  · simp only [TokenManager.refresh_token, storage_get]
    rw [alookup_adelete_self]

/-- Witness for C5 from a pair generated into an empty store. -/
theorem c5_revocation_asymmetry_witness :
    (mgr.revoke_token "a" (mgr.generate_token "u1" (some ["read"]) "a" "r" 1000 []).2).1 = true ∧
    (mgr.refresh_token "r" "na" "nr" 1000
        (mgr.revoke_token "a" (mgr.generate_token "u1" (some ["read"]) "a" "r" 1000 []).2).2).1 =
      some { access_token := "na", refresh_token := "nr", expires_in := mgr.token_ttl,
             token_type := "Bearer" } ∧
    (mgr.revoke_token "r" (mgr.generate_token "u1" (some ["read"]) "a" "r" 1000 []).2).1 = true ∧
    storage_get (mgr.revoke_token "r" (mgr.generate_token "u1" (some ["read"]) "a" "r" 1000 []).2).2
        (mgr.hash_token "a") = none ∧
    storage_get (mgr.revoke_token "r" (mgr.generate_token "u1" (some ["read"]) "a" "r" 1000 []).2).2
        (mgr.hash_token "r") = none ∧
    mgr.validate_token "a" 1000
        (mgr.revoke_token "r" (mgr.generate_token "u1" (some ["read"]) "a" "r" 1000 []).2).2 =
      (none, (mgr.revoke_token "r" (mgr.generate_token "u1" (some ["read"]) "a" "r" 1000 []).2).2) ∧
    (mgr.refresh_token "r" "na" "nr" 1000
        (mgr.revoke_token "r" (mgr.generate_token "u1" (some ["read"]) "a" "r" 1000 []).2).2).1 =
      none :=
  c5_revocation_asymmetry mgr "u1" ["read"] "a" "r" "na" "nr" 1000 []
    (by decide) (by decide)
